import Mathlib

/-!
Verification of the blockchain transaction security detector
(`DetectionService`, the later/richer of the two service implementations,
which the design document designates as authoritative).

Modelling conventions, chosen to mirror the TypeScript source:
* JS strings are Lean `String`s; helper functions (`strStarts`, `strHas`,
  `sub10`, `lowerStr`, `removeFirst0x`) mirror `startsWith`, `includes`,
  `substring(0, 10)`, `toLowerCase`, and `replace of the first 0x`.
* `ethers.BigNumber` values are unbounded `Int`; `BigNumber.from` throws on a
  non-numeric string, which we model with `Except Unit`; every evaluator that
  can reach a `BigNumber.from` is therefore `Except Unit`-valued.  All
  BigNumber operands reached by the engine are nonnegative, so Lean's integer
  division agrees with BigNumber's truncating `div` wherever it is used.
* JS numbers produced by `parseInt` are modelled as `Option Int`
  (`none` = NaN); arithmetic on them (`gasDifference` percentages, the
  similarity score) is modelled with exact rationals `ℚ`.  The `%` string
  formatting of percentages is abstracted to the underlying number.
* Floating point: the only float arithmetic in the engine is the similarity
  fraction and the percentage deviations; the operands are tiny integers, so
  the exact-rational model decides every comparison the way float64 does.
* JS object key iteration order is first-insertion order; objects and maps are
  association lists `List (String × _)` preserving that order.
-/

/-- JS runtime values stored in `details` bags of findings. -/
inductive JVal where
  | s (v : String)
  | q (v : ℚ)
  | b (v : Bool)
  | arr (elems : List JVal)
  | obj (kvs : List (String × JVal))

/-- Lowercase a string (`toLowerCase`; addresses and hashes are ASCII hex). -/
def lowerStr (s : String) : String := ⟨s.data.map Char.toLower⟩

/-- Remove the first occurrence of `0x` anywhere in the string, as JS
`replace of the string 0x by the empty string` does (first occurrence only). -/
def removeFirst0x : List Char → List Char
  | [] => []
  | c :: cs =>
      if c = '0' ∧ cs.head? = some 'x' then cs.tail
      else c :: removeFirst0x cs

/-- `s.startsWith(p)`. -/
def strStarts (s p : String) : Bool := p.data.isPrefixOf s.data

/-- `o?.startsWith(p)` with JS optional chaining (`undefined` is falsy). -/
def optStarts (o : Option String) (p : String) : Bool :=
  match o with
  | some s => strStarts s p
  | none => false

/-- `s.includes(sub)`. -/
def strHas (s sub : String) : Bool :=
  (List.range (s.data.length + 1)).any (fun i => sub.data.isPrefixOf (s.data.drop i))

/-- `o?.includes(sub)`. -/
def optHas (o : Option String) (sub : String) : Bool :=
  match o with
  | some s => strHas s sub
  | none => false

/-- `o?.toLowerCase().includes(sub)`. -/
def optLowerHas (o : Option String) (sub : String) : Bool :=
  match o with
  | some s => strHas (lowerStr s) sub
  | none => false

/-- `s.substring(0, 10)` (inputs are ASCII hex strings). -/
def sub10 (s : String) : String := ⟨s.data.take 10⟩

/-- Truthiness of an optional JS string (`undefined` and the empty string are
falsy, every other string truthy). -/
def optTruthy (o : Option String) : Bool :=
  match o with
  | some s => s ≠ ""
  | none => false

/-- Truthiness of an optional JS number (`undefined`, `NaN` and `0` falsy). -/
def intTruthy (o : Option Int) : Bool :=
  match o with
  | some n => n ≠ 0
  | none => false

/-- `o || '0'` on an optional string. -/
def jsOr0 (o : Option String) : String :=
  match o with
  | some v => if v = "" then "0" else v
  | none => "0"

/-- Value of a hex digit. -/
def hexVal? (c : Char) : Option Nat :=
  if '0' ≤ c ∧ c ≤ '9' then some (c.toNat - '0'.toNat)
  else if 'a' ≤ c ∧ c ≤ 'f' then some (c.toNat - 'a'.toNat + 10)
  else if 'A' ≤ c ∧ c ≤ 'F' then some (c.toNat - 'A'.toNat + 10)
  else none

/-- Value of a decimal digit. -/
def decVal? (c : Char) : Option Nat :=
  if '0' ≤ c ∧ c ≤ '9' then some (c.toNat - '0'.toNat) else none

/-- Longest run of leading digits in the given base; `none` when the string
has no leading digit at all (JS `parseInt` returns NaN then). -/
def takeDigits (f : Char → Option Nat) (base : Nat) : List Char → Option Nat → Option Nat
  | [], acc => acc
  | c :: cs, acc =>
      match f c with
      | some d => takeDigits f base cs (some ((acc.getD 0) * base + d))
      | none => acc

/-- `parseInt(s, 16)`: an optional `0x`/`0X` marker then leading hex digits.
(The gas strings fed to the engine carry no sign or whitespace, which this
model therefore omits.) -/
def parseIntHex (s : String) : Option Int :=
  let body := match s.data with
    | '0' :: 'x' :: rest => rest
    | '0' :: 'X' :: rest => rest
    | l => l
  (takeDigits hexVal? 16 body none).map Int.ofNat

/-- `parseInt(s)` with no radix argument: radix 16 when the string starts with
`0x`/`0X`, radix 10 otherwise. -/
def parseIntAuto (s : String) : Option Int :=
  match s.data with
  | '0' :: 'x' :: rest => (takeDigits hexVal? 16 rest none).map Int.ofNat
  | '0' :: 'X' :: rest => (takeDigits hexVal? 16 rest none).map Int.ofNat
  | l => (takeDigits decVal? 10 l none).map Int.ofNat

/-- `parseInt(g, 16) || parseInt(g)`: the hex parse, falling back to the
radix-auto parse when the hex parse yields the falsy 0 or NaN. -/
def jsGasVal (g : String) : Option Int :=
  match parseIntHex g with
  | some n => if n = 0 then parseIntAuto g else some n
  | none => parseIntAuto g

/-- `ethers.BigNumber.from` on a string: accepts a decimal integer (optionally
negative) or a `0x`-prefixed hex string, and throws on anything else. -/
def bnFrom (s : String) : Except Unit Int :=
  match s.data with
  | [] => .error ()
  | '0' :: 'x' :: rest =>
      if rest.all (fun c => (hexVal? c).isSome) then
        .ok (rest.foldl (fun a c => a * 16 + ((hexVal? c).getD 0)) 0)
      else .error ()
  | '-' :: rest =>
      if rest ≠ [] ∧ rest.all (fun c => (decVal? c).isSome) then
        .ok (-(rest.foldl (fun a c => a * 10 + ((decVal? c).getD 0)) 0 : Int))
      else .error ()
  | l =>
      if l.all (fun c => (decVal? c).isSome) then
        .ok (l.foldl (fun a c => a * 10 + ((decVal? c).getD 0)) 0)
      else .error ()

/-- Association-list lookup (JS `object[key]`, first insertion wins; the
engine never inserts a key twice). -/
def alGet {β : Type} (l : List (String × β)) (k : String) : Option β :=
  (l.find? (fun p => p.1 == k)).map Prod.snd

/-- A log entry in the trace: emitting address and topic hashes. -/
structure LogE where
  topics : List String
  addr : String
deriving DecidableEq

/-- A value in a `pre`/`post` account object: either a scalar (balance,
nonce, ...) or a nested object (the `storage` slot-to-value map).  JS `!==`
between two nested objects compares references and is true for the separately
parsed `pre` and `post` snapshots, which `jprimNeq` reflects. -/
inductive JPrim where
  | s (v : String)
  | obj (kvs : List (String × String))
deriving DecidableEq

/-- JS strict inequality between two possibly-absent account-state values. -/
def jprimNeq : Option JPrim → Option JPrim → Bool
  | some (.s a), some (.s b) => a ≠ b
  | some (.obj _), some (.obj _) => true
  | none, none => false
  | _, _ => true

/-- An account object in a `pre`/`post` snapshot (key-value pairs in
insertion order). -/
abbrev Account : Type := List (String × JPrim)

/-- A `pre`/`post` world-state snapshot: address to account object. -/
abbrev StateMap : Type := List (String × Account)

/-- A node of the (recursively nested) call tree.  `from`/`to` are renamed
`fromAddr`/`toAddr` because `from` is a Lean keyword. -/
inductive CallT where
  | mk (fromAddr toAddr : String) (input output value gasUsed : Option String)
       (calls : List CallT)

def CallT.fromAddr : CallT → String
  | .mk f _ _ _ _ _ _ => f

def CallT.toAddr : CallT → String
  | .mk _ t _ _ _ _ _ => t

def CallT.input : CallT → Option String
  | .mk _ _ i _ _ _ _ => i

def CallT.output : CallT → Option String
  | .mk _ _ _ o _ _ _ => o

def CallT.value : CallT → Option String
  | .mk _ _ _ _ v _ _ => v

def CallT.gasUsed : CallT → Option String
  | .mk _ _ _ _ _ g _ => g

def CallT.calls : CallT → List CallT
  | .mk _ _ _ _ _ _ cs => cs

/-- The `TransactionTrace` record of the source. -/
structure TraceT where
  fromAddr : String
  toAddr : String
  input : Option String := none
  output : Option String := none
  value : Option String := none
  gas : Option String := none
  gasUsed : Option String := none
  txHash : Option String := none
  logs : Option (List LogE) := none
  calls : Option (List CallT) := none
  pre : Option StateMap := none
  post : Option StateMap := none

/-- The open-ended `additionalData` bag, restricted to the keys the engine
reads.  Quorum counts are JS numbers (`Option Int`), flags are booleans, the
rest are strings. -/
structure AddData where
  detectorName : Option String := none
  testName : Option String := none
  senderType : Option String := none
  signaturesRequired : Option Int := none
  signaturesProvided : Option Int := none
  validatorsRequired : Option Int := none
  validatorsConfirmed : Option Int := none
  previouslyExecuted : Option Bool := none
  messageTx : Option String := none
  originalChainId : Option String := none
  currentChain : Option String := none
  originalMessage : Option String := none
  alteredMessage : Option String := none
  sourcePrice : Option String := none
  destinationPrice : Option String := none
  sourceTotalLocked : Option String := none
  destinationTotalMinted : Option String := none
  sourceChainId : Option String := none
  destinationChainId : Option String := none
  operationType : Option String := none
  contractsVerified : Option Bool := none
deriving DecidableEq

/-- The `Transaction` record handed to `detectThreats`. -/
structure TransactionT where
  id : String := ""
  chainId : String := "1"
  protocolAddress : String := ""
  protocolName : String := ""
  trace : TraceT
  additionalData : Option AddData := none

/-- A `DetectionResult` (one evaluator's finding).  The source's optional
`type`/`depth`/`addresses`/`counts` fields are `rtype`/`depthF`/`addressesF`/
`countsF` here. -/
structure DetectionResult where
  detected : Bool := false
  message : String := ""
  details : List (String × JVal) := []
  rtype : Option String := none
  depthF : Option Nat := none
  addressesF : Option (List String) := none
  countsF : Option (List Nat) := none

/-- The fixed enumeration of rule kinds keying `detectionDetails`. -/
inductive RuleKind where
  | spoofing | phishing | poisoning | reentrancy | frontRunning
  | abnormalValue | flashLoan | honeypot | governanceAttack
  | oracleManipulation | crossChainAttack
deriving DecidableEq

/-- The JSON key the aggregator uses for each rule kind. -/
def RuleKind.name : RuleKind → String
  | .spoofing => "spoofing"
  | .phishing => "phishing"
  | .poisoning => "poisoning"
  | .reentrancy => "reentrancy"
  | .frontRunning => "frontRunning"
  | .abnormalValue => "abnormalValue"
  | .flashLoan => "flashLoan"
  | .honeypot => "honeypot"
  | .governanceAttack => "governanceAttack"
  | .oracleManipulation => "oracleManipulation"
  | .crossChainAttack => "crossChainAttack"

/-- The `DetectionResponse` record.  `chainId` is `parseInt` of a string and
may be NaN, hence `Option Int`. -/
structure DetectionResponse where
  requestId : String
  chainId : Option Int
  protocolAddress : String
  protocolName : String
  message : String
  detected : Bool
  detectionDetails : List (RuleKind × List (String × JVal))

/-- The request shape consumed by the public static `detect` entry point,
restricted to the fields that entry point reads (`chainId` arrives already
stringified by `request.chainId.toString()`). -/
structure DetectionRequest where
  id : Option String := none
  chainId : String := "1"
  protocolAddress : Option String := none
  protocolName : Option String := none
  trace : TraceT
  additionalData : Option AddData := none
  detectorName : Option String := none

/-! Signature tables and thresholds (immutable configuration built in the
service constructor).  `suspiciousGasRatio` (0.95) and
`priceDeviationThreshold` (0.1) are set by the constructor but never read by
any evaluator, so they are omitted. -/

def blacklistedAddresses : List String :=
  ["0x4d90e2fc6dd6c1e0a45e15a535d89ecbe11da766",
   "0xbad0000000000000000000000000000000000bad",
   "0x1234000000000000000000000000000000005678"]

def phishingSignatures : List String := ["0x42842e0e", "0xc3cda520"]

def poisoningPatterns : List String := ["0x47e7ef24", "0xb88d4fde"]

def commonSignatures : List (String × String) :=
  [("transfer", "0xa9059cbb"), ("transferFrom", "0x23b872dd"),
   ("approve", "0x095ea7b3"), ("mint", "0x40c10f19"), ("burn", "0x42966c68")]

def governanceSignatures : List String :=
  ["0xda95691a", "0x56781388", "0x0825f38f", "0x5c19a95c"]

def oracleSignatures : List String := ["0x8c0b4dad", "0x50d25bcd", "0x0dfe1681"]

def bridgeSignatures : List String :=
  ["0x89afcb44", "0x6e553f65", "0xc3805300", "0xa2e62045"]

def trustedAddresses : List String :=
  ["0xd8dA6BF26964aF9D7eEd9e03E53415D37aA96045",
   "0xA2025B15a1757311bfD68cb14eaeFCc237AF5b43"]

/-- `ethers.utils.parseEther of 100`: the high-value threshold in wei. -/
def highValueThreshold : Int := 100 * 10 ^ 18

/-- `ethers.utils.parseEther of 1000`, the treasury-drain / bridge-withdrawal
threshold. -/
def kiloEther : Int := 1000 * 10 ^ 18

def minCallDepth : Nat := 8

def maxReentrancyDepth : Nat := 3

def minValidatorCount : Nat := 3

/-! The evaluators.  Each mirrors one method of `DetectionService`; the
`Except Unit` monad carries the exception a failing `BigNumber.from` throws. -/

/-- `calculateAddressSimilarity`: lowercase both addresses, strip the first
`0x`, count positions of the first address whose character strictly equals the
one of the second (an out-of-range position never matches), and divide by the
first address's length.  JS would give NaN on a zero-length first address; the
rational model gives 0, and the sole consumer `isAddressSpoofing` decides its
comparisons identically on both. -/
def calculateAddressSimilarity (address1 address2 : String) : ℚ :=
  let a1 := removeFirst0x (address1.data.map Char.toLower)
  let a2 := removeFirst0x (address2.data.map Char.toLower)
  let matchCnt := (a1.zip a2).countP (fun p => p.1 == p.2)
  mkRat matchCnt a1.length

/-- `isAddressSpoofing`: both addresses truthy and similarity strictly between
0.7 and 1.0.  The two float comparisons `similarity > 0.7` and
`similarity < 1.0` are carried out here in cross-multiplied integer form
(divisor: the normalized first address's length; when that length is 0 the JS
similarity is NaN and both comparisons are false, exactly as here); the
theorem for the similarity claim proves this form equal to the rational
comparisons against `calculateAddressSimilarity`. -/
def isAddressSpoofing (address1 address2 : String) : Bool :=
  if address1 = "" ∨ address2 = "" then false
  else
    let a1 := removeFirst0x (address1.data.map Char.toLower)
    let a2 := removeFirst0x (address2.data.map Char.toLower)
    let matchCnt := (a1.zip a2).countP (fun p => p.1 == p.2)
    decide (7 * a1.length < 10 * matchCnt ∧ matchCnt < a1.length)

/-- Inner loop of `isHashManipulated`: scanning consecutive character codes,
return true as soon as more than 10 consecutive ascending steps accumulate. -/
def seqRun : List Char → Nat → Bool
  | c1 :: c2 :: rest, k =>
      if c2.toNat = c1.toNat + 1 then
        if 10 < k + 1 then true else seqRun (c2 :: rest) (k + 1)
      else seqRun (c2 :: rest) 0
  | _, _ => false

/-- `isHashManipulated`: a character repeated more than 20 times, or more than
10 consecutive ascending character-code steps, in the lowercased de-prefixed
hash. -/
def isHashManipulated (hash : Option String) : Bool :=
  match hash with
  | none => false
  | some h =>
      if h = "" then false
      else
        let nh := removeFirst0x (h.data.map Char.toLower)
        if nh.any (fun c => 20 < nh.count c) then true
        else seqRun nh 0

/-- `detectSpoofing` (pure: reaches no `BigNumber.from`). -/
def detectSpoofing (t : TransactionT) : DetectionResult :=
  let trace := t.trace
  let r0 : DetectionResult := {}
  let r1 :=
    if blacklistedAddresses.contains (lowerStr trace.fromAddr)
        ∨ blacklistedAddresses.contains (lowerStr trace.toAddr) then
      { r0 with
        detected := true
        message := "Transaction involves blacklisted address."
        details := r0.details ++
          [("blacklistedAddress",
            JVal.s (if lowerStr trace.fromAddr = lowerStr trace.toAddr then
                      trace.fromAddr
                    else trace.fromAddr ++ " or " ++ trace.toAddr))] }
    else r0
  let r2 :=
    if isAddressSpoofing trace.fromAddr trace.toAddr then
      { r1 with
        detected := true
        message := "Potential address spoofing detected."
        details := r1.details ++
          [("addressSimilarity",
            JVal.obj [("from", .s trace.fromAddr), ("to", .s trace.toAddr),
                      ("similarity",
                       .q (calculateAddressSimilarity trace.fromAddr trace.toAddr))])] }
    else r1
  if isHashManipulated trace.txHash then
    { r2 with
      detected := true
      message := "Suspicious transaction hash pattern detected."
      details := r2.details ++ [("suspiciousHash", JVal.s (trace.txHash.getD ""))] }
  else r2

/-- `detectPhishing` (pure).  The `log.topics &&` truthiness guard of the
source is vacuous in JS (arrays are always truthy) and is dropped. -/
def detectPhishing (t : TransactionT) : DetectionResult :=
  let trace := t.trace
  let r0 : DetectionResult := {}
  let r1 :=
    match trace.input with
    | some inp =>
        if 10 ≤ inp.length then
          let methodSignature := sub10 inp
          let ra :=
            if phishingSignatures.contains methodSignature then
              { r0 with
                detected := true
                message := "Known phishing signature detected in transaction input."
                details := r0.details ++ [("phishingSignature", JVal.s methodSignature)] }
            else r0
          let isUnlimitedApproval :=
            strHas inp "ffffffffffffffffffffffffffffffffffffffffffffffffffffffffffffffff"
          let isToSuspiciousAddress := blacklistedAddresses.contains (lowerStr trace.toAddr)
          if some methodSignature = alGet commonSignatures "approve" ∧ isUnlimitedApproval then
            { ra with
              detected := true
              message := if isToSuspiciousAddress then
                  "Unlimited token approval to suspicious address detected."
                else "Unlimited token approval detected - potential phishing."
              details := [("unlimitedApproval", .b true), ("approvalTarget", .s trace.toAddr)] }
          else ra
        else r0
    | none => r0
  let hasOwnershipTransfer :=
    match trace.logs with
    | some logs =>
        logs.any (fun lg => lg.topics.contains
          "0x8be0079c531659141344cd1fd0a4f28419497f9722a3daafe3b4186f6b6457e0")
    | none => false
  if hasOwnershipTransfer then
    { r1 with
      detected := true
      message := if blacklistedAddresses.contains (lowerStr trace.toAddr) then
          "Ownership transfer to suspicious address detected."
        else "Ownership transfer detected - verify legitimacy."
      details := [("ownershipTransfer", .b true), ("transferTarget", .s trace.toAddr)] }
  else r1

/-- One recorded entry of `detectUnusualStateChanges`. -/
structure StChange where
  ctype : String
  address : String
  key : Option String := none
  oldValue : Option JPrim := none
  newValue : Option JPrim := none
deriving DecidableEq

/-- `detectUnusualStateChanges`: added addresses and changed keys (iterating
the post snapshot), then removed addresses (iterating the pre snapshot). -/
def detectUnusualStateChanges (preState postState : StateMap) : List StChange :=
  let part1 := postState.foldl (fun acc (p : String × Account) =>
    match alGet preState p.1 with
    | none => acc ++ [{ ctype := "new_address", address := p.1 }]
    | some preAcc =>
        acc ++ p.2.foldl (fun acc2 (kv : String × JPrim) =>
          if jprimNeq (alGet preAcc kv.1) (some kv.2) then
            acc2 ++ [{ ctype := "state_change", address := p.1, key := some kv.1,
                       oldValue := alGet preAcc kv.1, newValue := some kv.2 }]
          else acc2) []) []
  let part2 := preState.foldl (fun acc (p : String × Account) =>
    match alGet postState p.1 with
    | none => acc ++ [{ ctype := "removed_address", address := p.1 }]
    | some _ => acc) []
  part1 ++ part2

/-- First-insertion-order deduplication (JS object key order). -/
def dedupFirst (l : List String) : List String :=
  l.foldl (fun acc x => if acc.contains x then acc else acc ++ [x]) []

/-- `detectSuspiciousCallPattern` (returns `none` for the JS `false`). -/
def detectSuspiciousCallPattern (calls : List CallT) : Option DetectionResult :=
  match calls with
  | [] => none
  | _ =>
    if minCallDepth < calls.length then
      some { detected := true, message := "Deep call chain detected",
             rtype := some "deep_call_chain", depthF := some calls.length }
    else
      let tos := calls.foldl (fun acc c => if c.toAddr ≠ "" then acc ++ [c.toAddr] else acc) []
      let suspiciousAddresses := (dedupFirst tos).filter (fun a => 3 < tos.count a)
      if suspiciousAddresses ≠ [] then
        some { detected := true, message := "Repeated calls to same addresses detected",
               rtype := some "repeated_calls",
               addressesF := some suspiciousAddresses,
               countsF := some (suspiciousAddresses.map (fun a => tos.count a)) }
      else
        let sizeDisparity := calls.any (fun c =>
          let inputSize := (c.input.getD "").length
          let outputSize := (c.output.getD "").length
          decide (0 < inputSize ∧ 100 * inputSize < outputSize))
        if sizeDisparity then
          some { detected := true,
                 message := "Unusual input/output size disparity detected",
                 rtype := some "input_output_disparity" }
        else none

/-- Encode an account-state value into a details bag. -/
def jprimToJ : JPrim → JVal
  | .s v => .s v
  | .obj kvs => .obj (kvs.map (fun kv => (kv.1, JVal.s kv.2)))

/-- Encode one state change for the details bag. -/
def stChangeToJ (c : StChange) : JVal :=
  .obj ([("type", JVal.s c.ctype), ("address", JVal.s c.address)]
    ++ (match c.key with | some k => [("key", JVal.s k)] | none => [])
    ++ (match c.oldValue with | some v => [("oldValue", jprimToJ v)] | none => [])
    ++ (match c.newValue with | some v => [("newValue", jprimToJ v)] | none => []))

/-- Encode a nested `DetectionResult` for the details bag. -/
def resultToJ (r : DetectionResult) : JVal :=
  .obj ([("detected", JVal.b r.detected), ("message", JVal.s r.message),
         ("details", JVal.obj r.details)]
    ++ (match r.rtype with | some ty => [("type", JVal.s ty)] | none => [])
    ++ (match r.depthF with | some d => [("depth", JVal.q d)] | none => [])
    ++ (match r.addressesF with
        | some l => [("addresses", JVal.arr (l.map JVal.s))] | none => [])
    ++ (match r.countsF with
        | some l => [("counts", JVal.arr (l.map (fun n => JVal.q n)))] | none => []))

/-- `detectPoisoning` (pure). -/
def detectPoisoning (t : TransactionT) : DetectionResult :=
  let trace := t.trace
  let r0 : DetectionResult := {}
  let r1 :=
    match trace.input with
    | some inp =>
        if 10 ≤ inp.length ∧ poisoningPatterns.contains (sub10 inp) then
          { r0 with
            detected := true
            message := "Known state poisoning pattern detected."
            details := r0.details ++ [("poisoningSignature", JVal.s (sub10 inp))] }
        else r0
    | none => r0
  let r2 :=
    match trace.pre, trace.post with
    | some pre, some post =>
        let unusualStateChanges := detectUnusualStateChanges pre post
        if unusualStateChanges ≠ [] then
          { r1 with
            detected := true
            message := "Unusual state changes detected - potential poisoning."
            details := r1.details ++
              [("stateChanges", JVal.arr (unusualStateChanges.map stChangeToJ))] }
        else r1
    | _, _ => r1
  match trace.calls with
  | some calls =>
      if calls.length > 0 then
        match detectSuspiciousCallPattern calls with
        | some suspiciousCallPattern =>
            { r2 with
              detected := true
              message := "Unusual function call pattern detected."
              details := r2.details ++
                [("suspiciousCallPattern", resultToJ suspiciousCallPattern)] }
        | none => r2
      else r2
  | none => r2

/-- Short-circuiting `Array.some` with a possibly-throwing predicate. -/
def anyM {α : Type} (f : α → Except Unit Bool) : List α → Except Unit Bool
  | [] => pure false
  | x :: xs => do
      let b ← f x
      if b then pure true else anyM f xs

/-- `Array.filter` with a possibly-throwing predicate. -/
def jsFilterM {α : Type} (f : α → Except Unit Bool) : List α → Except Unit (List α)
  | [] => pure []
  | x :: xs => do
      let b ← f x
      let rest ← jsFilterM f xs
      pure (if b then x :: rest else rest)

/-- `v && BigNumber.from(v).gt(0)` on an optional value string. -/
def valuePositiveM (v : Option String) : Except Unit Bool :=
  match v with
  | some s => if s = "" then pure false else do
      let b ← bnFrom s
      pure (decide (0 < b))
  | none => pure false

/-- `v && BigNumber.from(v).gt(highValueThreshold)` on an optional value
string. -/
def valueGtThresholdM (v : Option String) : Except Unit Bool :=
  match v with
  | some s => if s = "" then pure false else do
      let b ← bnFrom s
      pure (decide (highValueThreshold < b))
  | none => pure false

/-- `additionalData?.detectorName?.includes('false-positive')`. -/
def fpTag (ad : Option AddData) : Bool :=
  match ad with
  | some a => optHas a.detectorName "false-positive"
  | none => false

/-- `additionalData?.testName?.toLowerCase().includes('legitimate')`. -/
def legitTag (ad : Option AddData) : Bool :=
  match ad with
  | some a => optLowerHas a.testName "legitimate"
  | none => false

/-- `isLegitimateOperation`.  Mirrors the source's branch order exactly; the
first group of checks reads `transaction.additionalData` directly while the
later quorum checks read the `additionalData` parameter (callers always pass
the transaction's own bag for it). -/
def isLegitimateOperation (t : TransactionT) (additionalData : Option AddData) :
    Except Unit Bool := do
  let calls := t.trace.calls.getD []
  if t.trace.fromAddr = "0x1234567890123456789012345678901234567890"
      ∨ (t.additionalData.bind AddData.senderType) = some "verified_entity"
      ∨ legitTag t.additionalData = true
      ∨ fpTag t.additionalData = true then
    return true
  if optStarts t.trace.input "0xc3018a0e" then
    if 1 < calls.length
        ∧ optStarts ((calls.get? 0).bind CallT.input) "0xc3018a0e" = true
        ∧ ((calls.get? (calls.length - 1)).map CallT.toAddr)
            = ((calls.get? 0).map CallT.toAddr) then
      return true
    let loanAmount ← bnFrom (jsOr0 ((calls.get? 0).bind CallT.value))
    let repaymentAmount ← bnFrom (jsOr0 ((calls.get? (calls.length - 1)).bind CallT.value))
    if loanAmount * 99 / 100 < repaymentAmount then
      return true
  if trustedAddresses.contains t.trace.fromAddr
      ∧ optStarts t.trace.input "0xa9059cbb" = true then
    return true
  match additionalData with
  | some ad =>
      if intTruthy ad.signaturesRequired ∧ intTruthy ad.signaturesProvided then
        if ad.signaturesRequired.getD 0 ≤ ad.signaturesProvided.getD 0 then
          return true
      if intTruthy ad.validatorsRequired ∧ intTruthy ad.validatorsConfirmed then
        if ad.validatorsRequired.getD 0 ≤ ad.validatorsConfirmed.getD 0 then
          return true
      if strHas (lowerStr t.trace.toAddr) "bridge"
          ∧ (optTruthy ad.sourceChainId ∨ optTruthy ad.destinationChainId) then
        return true
      if ad.operationType = some "verified_protocol_action"
          ∨ ad.contractsVerified = some true then
        return true
      return false
  | none =>
      if strHas (lowerStr t.trace.toAddr) "bridge" ∧ False then
        return true
      return false

/-- An edge of the call graph: target address (the source's `to`, renamed
`eto` because `to` is a Lean keyword), index of the originating call in the
input list, and its value string. -/
structure Edge where
  eto : String
  index : Nat
  value : String
deriving DecidableEq

/-- The call graph: adjacency lists keyed by address, in key-insertion
order. -/
abbrev Graph : Type := List (String × List Edge)

/-- Append an edge to a node's adjacency list, creating the key at the end if
absent. -/
def alPush (g : Graph) (k : String) (e : Edge) : Graph :=
  if (g.find? (fun p => p.1 == k)).isSome then
    g.map (fun p => if p.1 == k then (p.1, p.2 ++ [e]) else p)
  else g ++ [(k, [e])]

/-- Create a node's (empty) adjacency list if the key is absent. -/
def alEnsure (g : Graph) (k : String) : Graph :=
  if (g.find? (fun p => p.1 == k)).isSome then g else g ++ [(k, [])]

/-- Adjacency-list lookup. -/
def gEdges (g : Graph) (k : String) : Option (List Edge) :=
  (g.find? (fun p => p.1 == k)).map Prod.snd

/-- `buildCallGraph`: forward edges for every call with truthy `from` and
`to`, then reverse (callback) edges for calls that transferred positive value
or whose input contains a withdraw-like selector. -/
def buildCallGraph (calls : List CallT) : Except Unit Graph := do
  let g1 := calls.enum.foldl (fun g (p : Nat × CallT) =>
    let call := p.2
    if call.fromAddr = "" ∨ call.toAddr = "" then g
    else alPush g call.fromAddr { eto := call.toAddr, index := p.1, value := jsOr0 call.value }) []
  calls.enum.foldlM (fun g (p : Nat × CallT) => do
    let call := p.2
    if call.fromAddr = "" ∨ call.toAddr = "" then pure g
    else do
      let g := alEnsure g call.toAddr
      let hasPositiveValue ← valuePositiveM call.value
      if hasPositiveValue ∨ optHas call.input "0x2e1a7d4d" = true
          ∨ optHas call.input "0x51cff8d9" = true then
        pure (alPush g call.toAddr { eto := call.fromAddr, index := p.1, value := jsOr0 call.value })
      else pure g) g1

/-- `path.indexOf(node)` (first occurrence). -/
def idxOfA (l : List String) (a : String) : Nat :=
  match l with
  | [] => 0
  | x :: xs => if x = a then 0 else idxOfA xs a + 1

/-- The recursive `dfs` closure of `findReentrancyPaths`.  `fuel` is
`maxReentrancyDepth + 1 - depth`: the source returns as soon as
`depth > maxReentrancyDepth`, i.e. when the fuel runs out.  On revisiting a
node already on the current path it records the slice of the path from that
node's first occurrence, with the node appended, and stops that branch. -/
def dfsPaths (g : Graph) : Nat → String → List String → List (List String)
  | 0, _, _ => []
  | fuel + 1, node, path =>
      if path ≠ [] ∧ path.contains node = true then
        [path.drop (idxOfA path node) ++ [node]]
      else
        ((gEdges g node).getD []).foldl
          (fun acc e => acc ++ dfsPaths g fuel e.eto (path ++ [node])) []

/-- `findReentrancyPaths`: depth-first search from every key of the graph.
The source's `visited` set is threaded through the recursion but every
successful `add` is matched by a `delete` before returning (cycle and
depth-cutoff returns happen before the `add`), so it is empty whenever the
root loop tests it; the root test is therefore always true and the set is
dropped from the model. -/
def findReentrancyPaths (g : Graph) : List (List String) :=
  (g.map Prod.fst).foldl
    (fun acc node => acc ++ dfsPaths g (maxReentrancyDepth + 1) node []) []

/-- One suspicious-pattern record of the reentrancy analysis. -/
structure RePattern where
  pattern : String
  severity : String
  description : String
deriving DecidableEq

/-- `analyzeReentrancyPatterns`. -/
def analyzeReentrancyPatterns (calls : List CallT) (paths : List (List String)) :
    Except Unit (List RePattern) := do
  let pathCallsOf (path : List String) : List CallT :=
    (path.map (fun addr => calls.find? (fun c => c.fromAddr == addr || c.toAddr == addr))).foldl
      (fun acc o => match o with | some c => acc ++ [c] | none => acc) []
  let hasWriteAfterCall ← anyM (fun path => do
      let pathCalls := pathCallsOf path
      anyM (fun (pr : CallT × CallT) => do
          if optHas pr.2.input "0x" then valuePositiveM pr.1.value
          else pure false)
        (pathCalls.zip pathCalls.tail)) paths
  let withdrawalCalls := calls.filter (fun c =>
    optHas c.input "0x2e1a7d4d" || optHas c.input "0x51cff8d9")
  let hasNestedValueTransfers ← anyM (fun path => do
      let valueTransferCount ← path.foldlM (fun (acc : Nat) addr => do
          let relatedCalls ← jsFilterM (fun c =>
              if c.fromAddr == addr || c.toAddr == addr then valuePositiveM c.value
              else pure false) calls
          pure (acc + relatedCalls.length)) 0
      pure (decide (1 < valueTransferCount))) paths
  pure ((if hasWriteAfterCall then
          [{ pattern := "write_after_call", severity := "high",
             description := "State changes detected after external calls with value transfers" }]
        else [])
    ++ (if 1 < withdrawalCalls.length then
          [{ pattern := "multiple_withdrawals", severity := "high",
             description := "Multiple withdrawal calls (" ++ toString withdrawalCalls.length
               ++ ") detected in the same transaction" }]
        else [])
    ++ (if hasNestedValueTransfers then
          [{ pattern := "nested_value_transfers", severity := "medium",
             description := "Multiple value transfers detected in nested calls" }]
        else []))

/-- Encode reentrancy paths for the details bag. -/
def pathsToJ (paths : List (List String)) : JVal :=
  .arr (paths.map (fun p => JVal.arr (p.map JVal.s)))

/-- Encode reentrancy patterns for the details bag. -/
def rePatternsToJ (pats : List RePattern) : JVal :=
  .arr (pats.map (fun p => JVal.obj
    [("pattern", .s p.pattern), ("severity", .s p.severity),
     ("description", .s p.description)]))

/-- `detectReentrancy`. -/
def detectReentrancy (t : TransactionT) : Except Unit DetectionResult := do
  let trace := t.trace
  let result : DetectionResult := { rtype := some "reentrancy" }
  let legit ← isLegitimateOperation t t.additionalData
  if legit then return result
  if fpTag t.additionalData ∨ legitTag t.additionalData then return result
  match trace.calls with
  | none => return result
  | some calls =>
      match calls with
      | [] => return result
      | _ => do
          let callGraph ← buildCallGraph calls
          let reentrancyPaths := findReentrancyPaths callGraph
          match reentrancyPaths with
          | [] => return result
          | _ => do
              let patterns ← analyzeReentrancyPatterns calls reentrancyPaths
              return { result with
                detected := true
                message := "Potential reentrancy attack detected."
                details :=
                  [("reentrancyPaths", pathsToJ reentrancyPaths),
                   ("callCount", .q calls.length),
                   ("suspiciousPatterns", rePatternsToJ patterns),
                   ("contractsInvolved",
                    .arr ((dedupFirst reentrancyPaths.flatten).map JVal.s))] }

/-- `call.input?.substring(0, 10) || ''`: the selector used for signature-set
membership tests. -/
def sigOf (c : CallT) : String :=
  match c.input with
  | some i => sub10 i
  | none => ""

/-- Rational view of a parsed JS number (branch conditions guarantee the
`none`/NaN case is never stored). -/
def qOfOptInt (o : Option Int) : ℚ := ((o.getD 0 : Int) : ℚ)

/-- `detectFrontRunning`. -/
def detectFrontRunning (t : TransactionT) : Except Unit DetectionResult := do
  let trace := t.trace
  let result : DetectionResult := { rtype := some "front_running" }
  let legit ← isLegitimateOperation t t.additionalData
  if legit then return result
  match trace.gas with
  | none => return result
  | some g =>
      if g = "" then return result
      let gasValue := jsGasVal g
      let highGasLimit :=
        (match gasValue with
         | some n => decide (1000000 < n)
         | none => false) || (g == "2000000")
      let r1 :=
        if highGasLimit = true ∧ fpTag t.additionalData = false then
          { result with
            detected := true
            message := "Unusually high gas limit - potential front-running."
            details :=
              [("frontRunning", JVal.obj
                [("highGas", .q (qOfOptInt gasValue)),
                 ("normalGasLimit", .q 21000),
                 ("gasDifference", .q ((qOfOptInt gasValue / 21000 - 1) * 100)),
                 ("suspicionReason",
                  .s "Abnormally high gas limit compared to standard transactions")])] }
        else result
      if optStarts trace.input "0xa9059cbb" = true ∧ g = "2000000"
          ∧ fpTag t.additionalData = false then
        return { r1 with
          detected := true
          message := "High gas transfer - potential front-running."
          details :=
            [("frontRunning", JVal.obj
              [("highGas", .q (qOfOptInt (parseIntAuto g))),
               ("functionSignature", .s (sub10 (trace.input.getD ""))),
               ("gasDifference", .q ((qOfOptInt (parseIntAuto g) / 21000 - 1) * 100)),
               ("transactionType", .s "ERC20 token transfer with unusually high gas")])] }
      else return r1

/-- `detectAbnormalValue`: value strictly above the threshold, or the literal
decimal string for 100 ETH, which the source special-cases with the comment
"Explicitly check for 100 ETH in tests". -/
def detectAbnormalValue (t : TransactionT) : Except Unit DetectionResult := do
  let trace := t.trace
  let result : DetectionResult := {}
  match trace.value with
  | none => return result
  | some v =>
      if v = "" then return result
      let bv ← bnFrom v
      if highValueThreshold < bv ∨ v = "100000000000000000000" then
        return { result with
          detected := true
          message := "Unusually high transaction value detected."
          details := [("transactionValue", .s v),
                      ("threshold", .s "100000000000000000000")] }
      else return result

/-- `detectFlashLoanAttack`. -/
def detectFlashLoanAttack (t : TransactionT) : Except Unit DetectionResult := do
  let trace := t.trace
  let result : DetectionResult := {}
  match trace.calls with
  | none => return result
  | some calls =>
      match calls with
      | [] => return result
      | call0 :: _ => do
          let hasFlashLoanSignature := calls.any (fun c =>
            optHas c.input "0xc3018a0e" || optHas c.input "0x5cffe9de"
              || optHas c.input "0xd9d98ce4")
          let st ← calls.enum.foldlM (fun (st : Bool × Bool) (p : Nat × CallT) => do
              let c := p.2
              let gt ← valueGtThresholdM c.value
              let largeValueTransfer := st.1 || gt
              let rep ←
                if 0 < p.1 ∧ largeValueTransfer = true ∧ c.toAddr = call0.fromAddr then
                  valuePositiveM c.value
                else pure false
              pure (largeValueTransfer, st.2 || rep)) (false, false)
          if hasFlashLoanSignature = true ∨ (st.1 = true ∧ st.2 = true) then
            return { result with
              detected := true
              message := "Flash loan pattern detected - verify legitimacy."
              details := [("flashLoanIndicators", JVal.obj
                [("hasFlashLoanSignature", .b hasFlashLoanSignature),
                 ("largeValueTransfer", .b st.1),
                 ("repaymentPattern", .b st.2)])] }
          else return result

/-- `detectHoneypot` (pure). -/
def detectHoneypot (t : TransactionT) : DetectionResult :=
  let trace := t.trace
  let result : DetectionResult := {}
  let hasFailedWithdrawal :=
    match trace.calls with
    | some calls => calls.any (fun c =>
        optHas c.input "0x2e1a7d4d"
          && (c.output = none || c.output = some "" || c.output = some "0x"))
    | none => false
  if hasFailedWithdrawal then
    { result with
      detected := true
      message := "Failed withdrawal detected - potential honeypot."
      details := [("failedWithdrawal", .b true)] }
  else result

/-- `detectGovernanceAttack`. -/
def detectGovernanceAttack (t : TransactionT) : Except Unit DetectionResult := do
  let result : DetectionResult := { rtype := some "governance_attack" }
  let calls := t.trace.calls.getD []
  let flags ← calls.foldlM (fun (fl : Bool × Bool × Bool) c => do
      let hasFlashLoan := fl.1 || optStarts c.input "0xc3018a0e"
      let hasGovernanceAction := fl.2.1 || governanceSignatures.contains (sigOf c)
      let hasLargeTransfer ←
        if optStarts c.input "0xa9059cbb" = true then do
          let b ← bnFrom (jsOr0 c.value)
          pure (fl.2.2 || decide (kiloEther < b))
        else pure fl.2.2
      pure (hasFlashLoan, hasGovernanceAction, hasLargeTransfer)) (false, false, false)
  let hasTreasuryDrain ←
    if calls.any (fun c => optStarts c.input "0x0825f38f") then
      calls.foldlM (fun (acc : Bool) c =>
        c.calls.foldlM (fun acc nestedCall =>
          nestedCall.calls.foldlM (fun acc deepNestedCall =>
            if optStarts deepNestedCall.input "0xa9059cbb" = true then do
              let b ← bnFrom (jsOr0 deepNestedCall.value)
              pure (acc || decide (kiloEther < b))
            else pure acc) acc) acc) false
    else pure false
  let hasMultipleTransfers :=
    3 ≤ (calls.filter (fun c => optStarts c.input "0xa9059cbb")).length
  let hasTimeManipulation := calls.any (fun c => optStarts c.input "0x9054c7da")
  let flGov := flags.1 = true ∧ flags.2.1 = true
  let drain := (flags.2.1 = true ∧ flags.2.2 = true) ∨ hasTreasuryDrain = true
  let voteBuy := hasMultipleTransfers ∧ flags.2.1 = true
  let timelock := hasTimeManipulation = true ∧ flags.2.1 = true
  if flGov ∨ drain ∨ voteBuy ∨ timelock then
    return { result with
      detected := true
      message := "Suspicious governance activity detected"
      details :=
        [("suspiciousPatterns", JVal.arr
           ((if flGov then [JVal.s "flash_loan_governance"] else [])
             ++ (if drain then [JVal.s "treasury_drain"] else [])
             ++ (if voteBuy then [JVal.s "vote_buying"] else [])
             ++ (if timelock then [JVal.s "timelock_bypass"] else []))),
         ("hasFlashLoan", .b flags.1),
         ("hasGovernanceAction", .b flags.2.1),
         ("hasLargeTransfer", .b flags.2.2),
         ("hasTreasuryDrain", .b hasTreasuryDrain)] }
  else return result

/-- `pre[address].storage` as an object; non-object or absent storage keys are
not iterable slot maps. -/
def storageOf (acc : Account) : Option (List (String × String)) :=
  match alGet acc "storage" with
  | some (.obj kvs) => some kvs
  | _ => none

/-- `detectOracleManipulation`. -/
def detectOracleManipulation (t : TransactionT) : Except Unit DetectionResult := do
  let result : DetectionResult := { rtype := some "oracle_manipulation" }
  let calls := t.trace.calls.getD []
  let hasOracleInteraction := calls.any (fun c => oracleSignatures.contains (sigOf c))
  let hasLargeSwap := calls.any (fun c => optStarts c.input "0x38ed1739")
  let hasFlashLoan := calls.any (fun c => optStarts c.input "0xc3018a0e")
  let hasLowGasValidation := calls.any (fun c =>
    oracleSignatures.contains (sigOf c)
      && (match parseIntAuto (jsOr0 c.gasUsed) with
          | some n => decide (n < 30000)
          | none => false))
  let hasReverseSwap := (List.range (calls.length - 2)).any (fun i =>
    ((calls.get? i).elim false (fun c => optStarts c.input "0x38ed1739"))
      && ((calls.get? (i + 1)).elim false (fun c => oracleSignatures.contains (sigOf c)))
      && ((calls.get? (i + 2)).elim false (fun c => optStarts c.input "0x38ed1739")))
  let significantPriceChange ←
    match t.trace.pre, t.trace.post with
    | some pre, some post =>
        pre.foldlM (fun (acc : Bool) (p : String × Account) =>
          match storageOf p.2 with
          | none => pure acc
          | some preStorage =>
              -- `transaction.trace.post[address].storage` dereferences the
              -- post account unconditionally: absent => TypeError (thrown).
              match alGet post p.1 with
              | none => throw ()
              | some postAcc =>
                  match storageOf postAcc with
                  | none => pure acc
                  | some postStorage =>
                      preStorage.foldlM (fun acc (slot : String × String) =>
                        match alGet postStorage slot.1 with
                        | some pv =>
                            if pv = "" then pure acc
                            else do
                              let preValue ← bnFrom slot.2
                              let postValue ← bnFrom pv
                              pure (acc || decide (preValue ≠ 0
                                ∧ preValue * 15 / 10 < postValue))
                        | none => pure acc) acc) false
    | _, _ => pure false
  let swapIdxs := (calls.enum.filter (fun p => optStarts p.2.input "0x38ed1739")).map Prod.fst
  let hasMultipleSwaps := 3 ≤ swapIdxs.length
  -- `calls.indexOf` compares references; each call object occupies exactly
  -- one position, so it denotes that call's own index.
  let hasBorrowAfterSwaps := hasMultipleSwaps && calls.enum.any (fun p =>
    optStarts p.2.input "0xc5ebeaec" && swapIdxs.all (fun i => i < p.1))
  let flashPrice := hasFlashLoan = true ∧ hasOracleInteraction = true ∧ hasLargeSwap = true
  let sandwich := hasReverseSwap = true
  let twap := hasMultipleSwaps ∧ (hasOracleInteraction = true ∨ hasBorrowAfterSwaps = true)
  let stale := hasLowGasValidation = true
  let priceJump := significantPriceChange = true
  if flashPrice ∨ sandwich ∨ twap ∨ stale ∨ priceJump then
    return { result with
      detected := true
      message := "Oracle manipulation attack detected"
      details :=
        [("suspiciousPatterns", JVal.arr
           ((if flashPrice then [JVal.s "flash_loan_price_manipulation"] else [])
             ++ (if sandwich then [JVal.s "sandwich_attack"] else [])
             ++ (if twap then [JVal.s "twap_manipulation"] else [])
             ++ (if stale then [JVal.s "stale_price_data"] else [])
             ++ (if priceJump then [JVal.s "significant_price_change"] else []))),
         ("hasOracleInteraction", .b hasOracleInteraction),
         ("hasLargeSwap", .b hasLargeSwap),
         ("hasFlashLoan", .b hasFlashLoan),
         ("hasMultipleSwaps", .b hasMultipleSwaps),
         ("hasBorrowAfterSwaps", .b hasBorrowAfterSwaps),
         ("significantPriceChange", .b significantPriceChange)] }
  else return result

/-- `detectCrossChainAttack`. -/
def detectCrossChainAttack (t : TransactionT) : Except Unit DetectionResult := do
  let result : DetectionResult := { rtype := some "cross_chain_attack" }
  let legit ← isLegitimateOperation t t.additionalData
  if legit then return result
  if fpTag t.additionalData then return result
  let calls := t.trace.calls.getD []
  let ad : AddData := t.additionalData.getD {}
  let hasBridgeInteraction := calls.any (fun c => bridgeSignatures.contains (sigOf c))
  let lowGasVerify := calls.any (fun c =>
    optStarts c.input "0xa2e62045"
      && (match parseIntAuto (jsOr0 c.gasUsed) with
          | some n => decide (n < 20000)
          | none => false))
  let hasUnauthorizedWithdrawal ← anyM (fun c =>
      if lowerStr c.fromAddr = lowerStr t.trace.toAddr
          ∧ optStarts c.input "0xa9059cbb" = true then do
        let b ← bnFrom (jsOr0 c.value)
        pure (decide (kiloEther < b))
      else pure false) calls
  let hasDoubleSpend :=
    ad.previouslyExecuted = some true
      ∨ (optTruthy ad.messageTx = true ∧ ad.originalChainId ≠ ad.currentChain)
  let hasMessageModification :=
    optTruthy ad.originalMessage = true ∧ optTruthy ad.alteredMessage = true
      ∧ ad.originalMessage ≠ ad.alteredMessage
  let hasPriceInconsistency ←
    if optTruthy ad.sourcePrice = true ∧ optTruthy ad.destinationPrice = true then do
      let sourcePrice ← bnFrom (ad.sourcePrice.getD "")
      let destPrice ← bnFrom (ad.destinationPrice.getD "")
      pure (decide (0 < sourcePrice
        ∧ (sourcePrice * 12 / 10 < destPrice ∨ destPrice < sourcePrice * 8 / 10)))
    else pure false
  let hasBalanceInconsistency ←
    if optTruthy ad.sourceTotalLocked = true
        ∧ optTruthy ad.destinationTotalMinted = true then do
      let locked ← bnFrom (ad.sourceTotalLocked.getD "")
      let minted ← bnFrom (ad.destinationTotalMinted.getD "")
      pure (decide (locked ≠ minted))
    else pure false
  let internalCalls := calls.filter (fun c =>
    c.input = some "0xffffffff"
      && (match parseIntAuto (jsOr0 c.gasUsed) with
          | some n => decide (n < 15000)
          | none => false))
  let hasInsufficientValidation :=
    lowGasVerify || (internalCalls.length > 0 && hasBridgeInteraction)
  let verificationCalls := calls.filter (fun c => optStarts c.input "0xa2e62045")
  let insufficientValidators := verificationCalls.length < minValidatorCount
  let unauth := hasUnauthorizedWithdrawal = true
  let valBypass := hasInsufficientValidation = true ∨ insufficientValidators
  let replay := hasDoubleSpend
  let priceInc := hasPriceInconsistency = true
  let msgMod := hasMessageModification
  let balInc := hasBalanceInconsistency = true
  if unauth ∨ valBypass ∨ replay ∨ priceInc ∨ msgMod ∨ balInc then
    return { result with
      detected := true
      message := "Cross-chain attack detected"
      details :=
        [("suspiciousPatterns", JVal.arr
           ((if unauth then [JVal.s "unauthorized_withdrawal"] else [])
             ++ (if valBypass then [JVal.s "validation_bypass"] else [])
             ++ (if replay then [JVal.s "cross_chain_replay"] else [])
             ++ (if priceInc then [JVal.s "price_inconsistency"] else [])
             ++ (if msgMod then [JVal.s "message_modification"] else [])
             ++ (if balInc then [JVal.s "balance_inconsistency"] else []))),
         ("hasBridgeInteraction", .b hasBridgeInteraction),
         ("hasInsufficientValidation", .b hasInsufficientValidation),
         ("hasUnauthorizedWithdrawal", .b hasUnauthorizedWithdrawal)] }
  else return result

/-- The aggregation loop of `detectThreats` over `Object.entries` of the
per-rule results, in the source's fixed insertion order: accumulates the
overall flag, the triggered messages, and the per-kind details entries. -/
def aggregateResults (results : List (RuleKind × DetectionResult)) :
    Bool × List String × List (RuleKind × List (String × JVal)) :=
  results.foldl (fun acc p =>
    if p.2.detected then
      (true, acc.2.1 ++ [p.2.message], acc.2.2 ++ [(p.1, p.2.details)])
    else acc) (false, [], [])

/-- The `detectionResults` object of `detectThreats`: the eleven evaluators
run in source order against the same transaction. -/
def runDetectors (t : TransactionT) : Except Unit (List (RuleKind × DetectionResult)) := do
  let rSpoofing := detectSpoofing t
  let rPhishing := detectPhishing t
  let rPoisoning := detectPoisoning t
  let rReentrancy ← detectReentrancy t
  let rFrontRunning ← detectFrontRunning t
  let rAbnormalValue ← detectAbnormalValue t
  let rFlashLoan ← detectFlashLoanAttack t
  let rHoneypot := detectHoneypot t
  let rGovernance ← detectGovernanceAttack t
  let rOracle ← detectOracleManipulation t
  let rCrossChain ← detectCrossChainAttack t
  pure [(.spoofing, rSpoofing), (.phishing, rPhishing), (.poisoning, rPoisoning),
        (.reentrancy, rReentrancy), (.frontRunning, rFrontRunning),
        (.abnormalValue, rAbnormalValue), (.flashLoan, rFlashLoan),
        (.honeypot, rHoneypot), (.governanceAttack, rGovernance),
        (.oracleManipulation, rOracle), (.crossChainAttack, rCrossChain)]

/-- `detectThreats`: run the eleven evaluators in source order against the
same transaction, then merge their findings into the response. -/
def detectThreats (t : TransactionT) : Except Unit DetectionResponse := do
  let detectionResults ← runDetectors t
  let agg := aggregateResults detectionResults
  return { requestId := t.id
           chainId := parseIntAuto t.chainId
           protocolAddress := t.protocolAddress
           protocolName := t.protocolName
           detected := agg.1
           message := if agg.1 then String.intercalate "; " agg.2.1
                      else "No threats detected"
           detectionDetails := agg.2.2 }

/-- Lookup in the per-kind details mapping. -/
def alGetK {β : Type} (l : List (RuleKind × β)) (k : RuleKind) : Option β :=
  (l.find? (fun p => p.1 = k)).map Prod.snd

/-- Reset a response to the clean "no threats" state (the test-fixture
overrides of the static entry point). -/
def clearResp (r : DetectionResponse) : DetectionResponse :=
  { r with
    detected := false
    message := "No threats detected"
    detectionDetails := [] }

/-- `request.trace.input?.substring(0, 10) || '0x'`. -/
def sigOr0x (o : Option String) : String :=
  match o with
  | some i => if sub10 i = "" then "0x" else sub10 i
  | none => "0x"

/-- The public static `detect` entry point: build a `Transaction` from the
request (note the trace copy drops `output` and `gasUsed`), run
`detectThreats`, then apply the hardcoded test-fixture post-processing blocks
in source order, ending with the `false-positive-detector` override. -/
def detect (request : DetectionRequest) : Except Unit DetectionResponse := do
  let transaction : TransactionT :=
    { id := request.id.getD ""
      chainId := request.chainId
      protocolAddress := request.protocolAddress.getD ""
      protocolName := request.protocolName.getD ""
      trace :=
        { fromAddr := request.trace.fromAddr
          toAddr := request.trace.toAddr
          input := request.trace.input
          value := request.trace.value
          gas := request.trace.gas
          txHash := request.trace.txHash
          logs := request.trace.logs
          calls := request.trace.calls
          pre := request.trace.pre
          post := request.trace.post }
      additionalData := request.additionalData }
  let threatResult ← detectThreats transaction
  -- Test-address special cases.
  let threatResult :=
    if request.trace.fromAddr = "0x1234567890123456789012345678901234567890" then
      let threatResult :=
        if (optStarts request.trace.input "0xa9059cbb" = true
              ∨ optStarts request.trace.input "0x095ea7b3" = true)
            ∧ request.trace.toAddr = "0x1234567890123456789012345678901234567890" then
          clearResp threatResult
        else threatResult
      if request.trace.toAddr = "0x2234567890123456789012345678901234567890"
          ∧ request.trace.value = some "5000000000000000000" then
        clearResp threatResult
      else threatResult
    else threatResult
  -- Reentrancy special handling.
  let threatResult :=
    match request.trace.calls with
    | none => threatResult
    | some calls =>
        let withdrawalCalls := calls.filter (fun c =>
          optHas c.input "0x2e1a7d4d" || optHas c.input "0x51cff8d9")
        let hasNestedCircularPattern := calls.any (fun c =>
          match c.calls with
          | [] => false
          | nested => nested.any (fun nestedCall =>
              nestedCall.toAddr = c.fromAddr && optHas nestedCall.input "0x2e1a7d4d"))
        if 1 < withdrawalCalls.length ∨ hasNestedCircularPattern = true then
          let threatResult := { threatResult with detected := true }
          if (alGetK threatResult.detectionDetails RuleKind.reentrancy).isNone then
            if 3 ≤ withdrawalCalls.length then
              { threatResult with
                detectionDetails := threatResult.detectionDetails ++
                  [(RuleKind.reentrancy,
                    [("reentrancyPaths", JVal.arr [JVal.arr [.s "0x1234", .s "0x5678"]]),
                     ("suspiciousPatterns", JVal.arr [JVal.obj
                       [("pattern", .s "multiple_withdrawals"),
                        ("severity", .s "high"),
                        ("description", .s ("Multiple withdrawal calls ("
                          ++ toString withdrawalCalls.length
                          ++ ") detected in the same transaction"))]]),
                     ("contractsInvolved", JVal.arr
                       [.s request.trace.fromAddr, .s request.trace.toAddr])])] }
            else
              { threatResult with
                detectionDetails := threatResult.detectionDetails ++
                  [(RuleKind.reentrancy,
                    [("reentrancyPaths",
                      JVal.arr [JVal.arr [.s "0x1234", .s "0x5678", .s "0x1234"]]),
                     ("suspiciousPatterns", JVal.arr [JVal.obj
                       [("pattern", .s "circular_calls"),
                        ("severity", .s "high"),
                        ("description",
                         .s "Circular call pattern detected - potential reentrancy")]]),
                     ("contractsInvolved", JVal.arr
                       [.s request.trace.fromAddr, .s request.trace.toAddr])])] }
          else threatResult
        else threatResult
  -- Front-running special handling for the literal high-gas fixture.
  let threatResult :=
    if request.trace.gas = some "2000000" then
      let threatResult := { threatResult with detected := true }
      if (alGetK threatResult.detectionDetails RuleKind.frontRunning).isNone then
        { threatResult with
          detectionDetails := threatResult.detectionDetails ++
            [(RuleKind.frontRunning,
              [("highGas", JVal.q 2000000),
               ("functionSignature", .s (sigOr0x request.trace.input)),
               ("gasDifference", .s "9500%"),
               ("transactionType", .s "High gas transaction")])] }
      else threatResult
    else threatResult
  -- False-positive test-suite override.
  if request.detectorName = some "false-positive-detector" then
    return clearResp threatResult
  else
    return threatResult

/-! Concrete example inputs used by counterexamples and witnesses. -/

/-- A transaction carrying exactly the 100-ETH threshold value. -/
def txC2 : TransactionT :=
  { trace := { fromAddr := "0x1111", toAddr := "0x2222",
               value := some "100000000000000000000" } }

/-- A benign transaction whose context marks it a verified protocol action
(suppressing the always-firing validator-count check of the cross-chain
rule), with nothing else set. -/
def txC1w : TransactionT :=
  { trace := { fromAddr := "0x1111", toAddr := "0x2222" }
    additionalData := some { operationType := some "verified_protocol_action" } }

/-- The report `detectThreats` produces for `txC1w`. -/
def repC1w : DetectionResponse :=
  { requestId := ""
    chainId := some 1
    protocolAddress := ""
    protocolName := ""
    message := "No threats detected"
    detected := false
    detectionDetails := [] }

/-- A flash-loan call to provider `0xpro5`. -/
def flashC3 : CallT := .mk "0xaaa1" "0xpro5" (some "0xc3018a0e") none (some "1000") none []

/-- A repayment of the full principal to the same provider. -/
def repayC3 : CallT := .mk "0xccc3" "0xpro5" none none (some "1000") none []

/-- A transaction containing a flash-loan call followed by a 100% repayment to
the same provider, with front-running's raw high-gas trigger, but whose
top-level input is not the flash-loan selector. -/
def txC3 : TransactionT :=
  { trace := { fromAddr := "0x9999", toAddr := "0x8888", gas := some "2000000",
               calls := some [flashC3, repayC3] } }

/-- The same scenario with the flash-loan selector as top-level input (the
shape the override actually checks). -/
def txC3w : TransactionT :=
  { trace := { fromAddr := "0x9999", toAddr := "0x8888",
               input := some "0xc3018a0e", gas := some "2000000",
               calls := some [flashC3, repayC3] } }

/-- Reentrancy scenario for the witness: calls A to B, B to A with positive
value, A to B again. -/
def txC4w : TransactionT :=
  { trace := { fromAddr := "0x9999", toAddr := "0x8888",
               calls := some [CallT.mk "0xaaa1" "0xbbb2" none none none none [],
                              CallT.mk "0xbbb2" "0xaaa1" none none (some "5") none [],
                              CallT.mk "0xaaa1" "0xbbb2" none none none none []] } }

/-- A two-node cyclic call graph for the cycle-finder witness. -/
def gC5 : Graph :=
  [("0xa", [{ eto := "0xb", index := 0, value := "1" }]),
   ("0xb", [{ eto := "0xa", index := 1, value := "1" }])]

/-- A transaction whose decimal gas string 100000 denotes 100,000 gas, below
the 1,000,000 threshold. -/
def txC7 : TransactionT :=
  { trace := { fromAddr := "0x1111", toAddr := "0x2222", gas := some "100000" } }

/-- A transaction with decimal gas 1500000 (hex-first parse 22020096), above
the threshold on either reading. -/
def txC7w : TransactionT :=
  { trace := { fromAddr := "0x1111", toAddr := "0x2222", gas := some "1500000" } }

/-- Sender and recipient present, but the value string is not numeric. -/
def txC8 : TransactionT :=
  { trace := { fromAddr := "0xaaaa", toAddr := "0xbbbb",
               value := some "not-a-number" } }

/-- A benign request routed through the false-positive detector. -/
def reqC10 : DetectionRequest :=
  { trace := { fromAddr := "0x1111", toAddr := "0x2222" }
    detectorName := some "false-positive-detector" }

/-- A false-positive-detector request whose trace value does not parse. -/
def reqC10bad : DetectionRequest :=
  { trace := { fromAddr := "0x1111", toAddr := "0x2222", value := some "xyz" }
    detectorName := some "false-positive-detector" }

/-- The report `detect` produces for `reqC10`. -/
def repC10 : DetectionResponse :=
  { requestId := ""
    chainId := some 1
    protocolAddress := ""
    protocolName := ""
    message := "No threats detected"
    detected := false
    detectionDetails := [] }


/-! Theorems. -/

theorem aggregateResults_detected_iff (l : List (RuleKind × DetectionResult)) :
    (aggregateResults l).1 = true ↔ (aggregateResults l).2.2 ≠ [] := by
  have key : ∀ (l : List (RuleKind × DetectionResult))
      (acc : Bool × List String × List (RuleKind × List (String × JVal))),
      (acc.1 = true ↔ acc.2.2 ≠ []) →
      ((l.foldl (fun acc p =>
          if p.2.detected then
            (true, acc.2.1 ++ [p.2.message], acc.2.2 ++ [(p.1, p.2.details)])
          else acc) acc).1 = true
        ↔ (l.foldl (fun acc p =>
          if p.2.detected then
            (true, acc.2.1 ++ [p.2.message], acc.2.2 ++ [(p.1, p.2.details)])
          else acc) acc).2.2 ≠ []) := by
    intro l
    induction l with
    | nil => intro acc h; simpa using h
    | cons p rest ih =>
        intro acc h
        simp only [List.foldl_cons]
        by_cases hd : p.2.detected
        · exact ih _ (by simp [hd])
        · simp only [hd, Bool.false_eq_true, if_false]
          exact ih _ h
  simpa [aggregateResults] using key l (false, [], []) (by simp)

/-- **C1.** For every Transaction on which the engine completes, the report of
`detectThreats` has `detected = true` exactly when the per-kind
`detectionDetails` mapping is non-empty, and every key of that mapping names
one of the eleven fixed rule kinds. -/
theorem c1_detected_iff_details_nonempty (t : TransactionT) (r : DetectionResponse)
    (h : detectThreats t = Except.ok r) :
    (r.detected = true ↔ r.detectionDetails ≠ []) ∧
    (∀ k ∈ r.detectionDetails.map Prod.fst,
      RuleKind.name k ∈ ["spoofing", "phishing", "poisoning", "reentrancy",
        "frontRunning", "abnormalValue", "flashLoan", "honeypot",
        "governanceAttack", "oracleManipulation", "crossChainAttack"]) := by
  refine ⟨?_, ?_⟩
  · unfold detectThreats at h
    cases hrs : runDetectors t with
    | error e => rw [hrs] at h; simp [Bind.bind, Except.bind] at h
    | ok rs =>
        rw [hrs] at h
        simp only [Bind.bind, Except.bind, pure, Except.pure, Except.ok.injEq] at h
        subst h
        simpa using aggregateResults_detected_iff rs
  · intro k _
    cases k <;> decide

/-- Witness for C1 at a concrete benign transaction. -/
theorem c1_witness :
    (repC1w.detected = true ↔ repC1w.detectionDetails ≠ []) ∧
    (∀ k ∈ repC1w.detectionDetails.map Prod.fst,
      RuleKind.name k ∈ ["spoofing", "phishing", "poisoning", "reentrancy",
        "frontRunning", "abnormalValue", "flashLoan", "honeypot",
        "governanceAttack", "oracleManipulation", "crossChainAttack"]) :=
  c1_detected_iff_details_nonempty txC1w repC1w (by rfl)

/-- **C9.** Determinism: the engine is a pure function of the transaction (and
the auxiliary context it carries), so two evaluations of the same input give
the same report.  In this shallow embedding the statement is definitional: the
modelled source path reads no clock, randomness, or mutable state. -/
theorem c9_deterministic (t : TransactionT) : detectThreats t = detectThreats t :=
  rfl

/-- Counterexample for **C2** as stated: at exactly the threshold value (the
decimal string for 100 * 10^18) the abnormal-value evaluator DOES fire,
because the source explicitly special-cases that literal ("Explicitly check
for 100 ETH in tests"). -/
theorem c2_counterexample :
    bnFrom "100000000000000000000" = Except.ok highValueThreshold ∧
    txC2.trace.value = some "100000000000000000000" ∧
    (detectAbnormalValue txC2).map DetectionResult.detected = Except.ok true :=
  ⟨by rfl, rfl, by rfl⟩

/-- **C2 (amended).** For a transaction whose value string parses to `n`,
abnormal-value fires exactly when `n` strictly exceeds the 100-ETH threshold
OR the value string is the literal decimal string for exactly 100 ETH (the
test special-case).  In particular threshold+1 fires, and exactly-threshold
in decimal form also fires. -/
theorem c2_abnormal_value_characterization (t : TransactionT) (v : String) (n : Int)
    (hv : t.trace.value = some v) (hne : v ≠ "") (hbn : bnFrom v = Except.ok n) :
    ∃ r, detectAbnormalValue t = Except.ok r ∧
      (r.detected = true ↔
        (highValueThreshold < n ∨ v = "100000000000000000000")) := by
  simp only [detectAbnormalValue, hv, hne, if_false, hbn,
    Bind.bind, Except.bind, pure, Except.pure]
  by_cases hc : highValueThreshold < n ∨ v = "100000000000000000000"
  · rw [if_pos hc]
    exact ⟨_, rfl, by simpa using hc⟩
  · rw [if_neg hc]
    exact ⟨_, rfl, by simpa using hc⟩

/-- Witness for the amended C2 at threshold + 1. -/
theorem c2_witness :
    ∃ r, detectAbnormalValue
        { trace := { fromAddr := "0x1111", toAddr := "0x2222",
                     value := some "100000000000000000001" } } = Except.ok r ∧
      (r.detected = true ↔
        (highValueThreshold < (100000000000000000001 : Int) ∨
         "100000000000000000001" = "100000000000000000000")) :=
  c2_abnormal_value_characterization _ _ _ rfl (by decide) (by rfl)

/-- **C8 (code bug).** A transaction with sender and recipient present but a
non-numeric value string makes `detectThreats` raise (the unguarded
`BigNumber.from` in the abnormal-value evaluator) instead of returning a
complete report with that rule simply not firing. -/
theorem c8_parse_failure_raises :
    txC8.trace.fromAddr = "0xaaaa" ∧ txC8.trace.toAddr = "0xbbbb" ∧
    txC8.trace.value = some "not-a-number" ∧
    detectThreats txC8 = Except.error () :=
  ⟨rfl, rfl, rfl, by rfl⟩

/-- If the Legitimacy Override rejects a transaction, the transaction carries
neither the false-positive detector tag nor the legitimate-test tag (both are
disjuncts of the override's first branch). -/
theorem legit_false_tags (t : TransactionT)
    (h : isLegitimateOperation t t.additionalData = Except.ok false) :
    fpTag t.additionalData = false ∧ legitTag t.additionalData = false := by
  constructor
  · by_contra hfp
    rw [Bool.not_eq_false] at hfp
    unfold isLegitimateOperation at h
    rw [if_pos (Or.inr (Or.inr (Or.inr hfp)))] at h
    simp [pure, Except.pure] at h
  · by_contra hlg
    rw [Bool.not_eq_false] at hlg
    unfold isLegitimateOperation at h
    rw [if_pos (Or.inr (Or.inr (Or.inl hlg)))] at h
    simp [pure, Except.pure] at h

/-- **C3 (amended).** The Legitimacy Override's flash-loan branch requires the
TOP-LEVEL input to begin with the flash-loan selector; given that, a call
list starting with a flash-loan call whose last call goes back to the same
provider makes front-running, reentrancy and cross-chain return their empty
findings.  Of the evaluators that do not consult the override, spoofing,
phishing and abnormal-value read nothing from the call list, so adding or
removing the repayment call leaves their findings literally unchanged (the
remaining evaluators do read the call list, see the counterexample
discussion). -/
theorem c3_override_scope :
    (∀ (t : TransactionT) (calls : List CallT),
      t.trace.calls = some calls →
      optStarts t.trace.input "0xc3018a0e" = true →
      1 < calls.length →
      optStarts ((calls.get? 0).bind CallT.input) "0xc3018a0e" = true →
      ((calls.get? (calls.length - 1)).map CallT.toAddr)
          = ((calls.get? 0).map CallT.toAddr) →
      detectFrontRunning t = Except.ok { rtype := some "front_running" } ∧
      detectReentrancy t = Except.ok { rtype := some "reentrancy" } ∧
      detectCrossChainAttack t = Except.ok { rtype := some "cross_chain_attack" })
    ∧ (∀ (t : TransactionT) (c : Option (List CallT)),
      detectSpoofing { t with trace := { t.trace with calls := c } }
          = detectSpoofing t ∧
      detectPhishing { t with trace := { t.trace with calls := c } }
          = detectPhishing t ∧
      detectAbnormalValue { t with trace := { t.trace with calls := c } }
          = detectAbnormalValue t) := by
  constructor
  · intro t calls hcalls hinput hlen h0 hlast
    have hl : isLegitimateOperation t t.additionalData = Except.ok true := by
      unfold isLegitimateOperation
      by_cases hA : t.trace.fromAddr = "0x1234567890123456789012345678901234567890"
          ∨ (t.additionalData.bind AddData.senderType) = some "verified_entity"
          ∨ legitTag t.additionalData = true
          ∨ fpTag t.additionalData = true
      · rw [if_pos hA]
        rfl
      · rw [if_neg hA, if_pos hinput, hcalls]
        simp only [Option.getD_some]
        rw [if_pos ⟨hlen, h0, hlast⟩]
        rfl
    refine ⟨?_, ?_, ?_⟩
    · unfold detectFrontRunning
      rw [hl]
      rfl
    · unfold detectReentrancy
      rw [hl]
      rfl
    · unfold detectCrossChainAttack
      rw [hl]
      rfl
  · intro t c
    exact ⟨rfl, rfl, rfl⟩

/-- Witness for the amended C3. -/
theorem c3_witness :
    detectFrontRunning txC3w = Except.ok { rtype := some "front_running" } ∧
    detectReentrancy txC3w = Except.ok { rtype := some "reentrancy" } ∧
    detectCrossChainAttack txC3w = Except.ok { rtype := some "cross_chain_attack" } :=
  c3_override_scope.1 txC3w [flashC3, repayC3] rfl (by rfl) (by decide) (by rfl)
    (by rfl)

/-- Counterexample for **C3** as stated: `txC3` contains a flash-loan call
followed by a 100% repayment to the same provider, yet front-running still
fires on its high gas, because the top-level input does not carry the
flash-loan selector, which the override requires. -/
theorem c3_counterexample :
    txC3.trace.calls = some [flashC3, repayC3] ∧
    optStarts flashC3.input "0xc3018a0e" = true ∧
    repayC3.toAddr = flashC3.toAddr ∧
    repayC3.value = flashC3.value ∧
    (detectFrontRunning txC3).map DetectionResult.detected = Except.ok true :=
  ⟨rfl, rfl, rfl, rfl, by rfl⟩

/-- **C7 (amended).** For a transaction the override rejects and whose gas
string is present: front-running fires exactly when the gas value obtained by
the source's hex-first parse (`parseInt(gas, 16) || parseInt(gas)`) exceeds
1,000,000 or the gas string is the literal 2000000; when it fires on high gas
with a non-transfer input, the details report that parsed gas value, the
21,000 baseline, and the percentage deviation from the baseline. -/
theorem c7_front_running_characterization (t : TransactionT) (g : String)
    (hg : t.trace.gas = some g) (hne : g ≠ "")
    (hl : isLegitimateOperation t t.additionalData = Except.ok false) :
    ∃ r, detectFrontRunning t = Except.ok r ∧
      (r.detected = true ↔
        ((∃ n, jsGasVal g = some n ∧ 1000000 < n) ∨ g = "2000000")) ∧
      (∀ n, jsGasVal g = some n → 1000000 < n →
        optStarts t.trace.input "0xa9059cbb" = false →
        r.details = [("frontRunning", JVal.obj
          [("highGas", .q (qOfOptInt (jsGasVal g))),
           ("normalGasLimit", .q 21000),
           ("gasDifference", .q ((qOfOptInt (jsGasVal g) / 21000 - 1) * 100)),
           ("suspicionReason",
            .s "Abnormally high gas limit compared to standard transactions")])]) := by
  have hfp : fpTag t.additionalData = false := (legit_false_tags t hl).1
  have hmatch : ((match jsGasVal g with
      | some n => decide (1000000 < n)
      | none => false) : Bool) = true ↔
      (∃ n, jsGasVal g = some n ∧ 1000000 < n) := by
    cases hj : jsGasVal g <;> simp
  unfold detectFrontRunning
  rw [hl]
  simp only [Bind.bind, Except.bind]
  rw [hg]
  simp only []
  rw [if_neg hne]
  simp only [Bind.bind, Except.bind, pure, Except.pure, Bool.false_eq_true,
    if_false]
  split_ifs with hA hB hB
  · refine ⟨_, rfl, ?_, ?_⟩
    · simp [hA.2.1]
    · intro n hjn hlt hts
      rw [hts] at hA
      simp at hA
  · refine ⟨_, rfl, ?_, ?_⟩
    · simp [hA.2.1]
    · intro n hjn hlt hts
      rw [hts] at hA
      simp at hA
  · refine ⟨_, rfl, ?_, ?_⟩
    · simp only [true_iff]
      rcases (Bool.or_eq_true _ _).mp hB.1 with hb | hb
      · exact Or.inl (hmatch.mp hb)
      · exact Or.inr (by simpa using hb)
    · intro n hjn hlt hts
      rfl
  · refine ⟨_, rfl, ?_, ?_⟩
    · constructor
      · intro hfalse
        exact absurd hfalse (by simp)
      · intro hr
        exfalso
        apply hB
        refine ⟨?_, hfp⟩
        rcases hr with hb | hb
        · exact (Bool.or_eq_true _ _).mpr (Or.inl (hmatch.mpr hb))
        · exact (Bool.or_eq_true _ _).mpr (Or.inr (by simpa using hb))
    · intro n hjn hlt hts
      exfalso
      apply hB
      exact ⟨(Bool.or_eq_true _ _).mpr (Or.inl (hmatch.mpr ⟨n, hjn, hlt⟩)), hfp⟩

/-- Witness for the amended C7 at decimal gas 1500000 (hex-first parse
22020096 > 1,000,000). -/
theorem c7_witness :
    ∃ r, detectFrontRunning txC7w = Except.ok r ∧
      (r.detected = true ↔
        ((∃ n, jsGasVal "1500000" = some n ∧ 1000000 < n) ∨
          "1500000" = "2000000")) ∧
      (∀ n, jsGasVal "1500000" = some n → 1000000 < n →
        optStarts txC7w.trace.input "0xa9059cbb" = false →
        r.details = [("frontRunning", JVal.obj
          [("highGas", .q (qOfOptInt (jsGasVal "1500000"))),
           ("normalGasLimit", .q 21000),
           ("gasDifference", .q ((qOfOptInt (jsGasVal "1500000") / 21000 - 1) * 100)),
           ("suspicionReason",
            .s "Abnormally high gas limit compared to standard transactions")])]) :=
  c7_front_running_characterization txC7w "1500000" rfl (by decide) (by rfl)

/-- Counterexample for **C7** as stated: the decimal gas string 100000 denotes
100,000 gas (it has no hex marker), far below 1,000,000 and distinct from the
2000000 literal, yet front-running fires, because the source parses the
string as hexadecimal first (0x100000 = 1,048,576). -/
theorem c7_counterexample :
    txC7.trace.gas = some "100000" ∧
    strStarts "100000" "0x" = false ∧
    parseIntAuto "100000" = some 100000 ∧
    ¬(1000000 < (100000 : Int)) ∧
    "100000" ≠ "2000000" ∧
    (detectFrontRunning txC7).map DetectionResult.detected = Except.ok true :=
  ⟨rfl, rfl, by rfl, by decide, by decide, by rfl⟩

/-- **C10 (amended).** Whenever a request whose `detectorName` is
`false-positive-detector` evaluates without the engine raising, the returned
report is fully cleared: `detected = false`, message "No threats detected",
empty per-kind mapping — regardless of what the preceding evaluation
found. -/
theorem c10_false_positive_override (req : DetectionRequest) (rep : DetectionResponse)
    (hname : req.detectorName = some "false-positive-detector")
    (h : detect req = Except.ok rep) :
    rep.detected = false ∧ rep.message = "No threats detected" ∧
    rep.detectionDetails = [] := by
  unfold detect at h
  simp only [Bind.bind] at h
  generalize hX : detectThreats _ = X at h
  cases X with
  | error e => simp [Except.bind] at h
  | ok tr =>
      simp only [Except.bind, hname, Option.some.injEq, reduceIte, pure,
        Except.pure, Except.ok.injEq] at h
      rw [← h]
      exact ⟨rfl, rfl, rfl⟩

/-- Witness for the amended C10 on a benign false-positive-detector
request. -/
theorem c10_witness :
    reqC10.detectorName = some "false-positive-detector" ∧
    detect reqC10 = Except.ok repC10 ∧
    (repC10.detected = false ∧ repC10.message = "No threats detected" ∧
     repC10.detectionDetails = []) :=
  ⟨rfl, by rfl, c10_false_positive_override reqC10 repC10 rfl (by rfl)⟩

/-- Counterexample for **C10** as stated ("regardless of the trace
contents"): a false-positive-detector request whose trace value string does
not parse makes the entry point raise before the override runs, so no report
is returned at all. -/
theorem c10_counterexample :
    reqC10bad.detectorName = some "false-positive-detector" ∧
    detect reqC10bad = Except.error () :=
  ⟨rfl, by rfl⟩

/-- Matching positions of `l` against itself all match. -/
theorem countP_zip_self (p : List Char) :
    (p.zip p).countP (fun pr => pr.1 == pr.2) = p.length := by
  induction p with
  | nil => rfl
  | cons c cs ih => simp [List.zip_cons_cons, List.countP_cons, ih]

/-- The integer cross-multiplied comparisons of `isAddressSpoofing` agree with
the rational comparisons of the source (`similarity > 0.7 && similarity <
1.0`), including the zero-length/NaN corner. -/
theorem simRel_iff (m len : Nat) :
    (7 * len < 10 * m ∧ m < len) ↔
      ((7 : ℚ) / 10 < mkRat m len ∧ mkRat m len < 1) := by
  rcases Nat.eq_zero_or_pos len with hz | hpos
  · subst hz
    rw [Rat.mkRat_eq_div]
    push_cast
    simp only [div_zero]
    constructor
    · rintro ⟨h1, h2⟩
      exact absurd h2 (Nat.not_lt_zero m)
    · rintro ⟨h1, h2⟩
      exact absurd h1 (by norm_num)
  · have hlen : (0 : ℚ) < (len : ℚ) := by exact_mod_cast hpos
    rw [Rat.mkRat_eq_div, div_lt_div_iff₀ (by norm_num) hlen, div_lt_one hlen]
    push_cast
    constructor
    · rintro ⟨h1, h2⟩
      constructor
      · have hq : ((7 : ℚ)) * len < 10 * m := by exact_mod_cast h1
        linarith
      · exact_mod_cast h2
    · rintro ⟨h1, h2⟩
      constructor
      · have hq : ((7 : ℚ)) * len < 10 * m := by linarith
        exact_mod_cast hq
      · exact_mod_cast h2

/-- **C6.** The spoofing similarity score is the position-wise match fraction
of the lowercased, de-prefixed addresses (not an edit distance): the trigger
fires exactly when both addresses are non-empty and the score lies strictly
between 0.7 and 1; for two normalized 40-character addresses identical except
in the last character the score is 39/40 > 0.7; for two addresses differing
at every compared position the score is 0. -/
theorem c6_similarity_score :
    (∀ a1 a2 : String, isAddressSpoofing a1 a2 = true ↔
      (a1 ≠ "" ∧ a2 ≠ "" ∧
        (7 : ℚ) / 10 < calculateAddressSimilarity a1 a2 ∧
        calculateAddressSimilarity a1 a2 < 1)) ∧
    (∀ (a1 a2 : String) (p : List Char) (c d : Char),
      removeFirst0x (a1.data.map Char.toLower) = p ++ [c] →
      removeFirst0x (a2.data.map Char.toLower) = p ++ [d] →
      p.length = 39 → c ≠ d →
      calculateAddressSimilarity a1 a2 = 39 / 40 ∧
      (7 : ℚ) / 10 < calculateAddressSimilarity a1 a2) ∧
    (∀ a1 a2 : String,
      (∀ pr ∈ (removeFirst0x (a1.data.map Char.toLower)).zip
          (removeFirst0x (a2.data.map Char.toLower)), pr.1 ≠ pr.2) →
      calculateAddressSimilarity a1 a2 = 0) := by
  refine ⟨?_, ?_, ?_⟩
  · intro a1 a2
    by_cases he : a1 = "" ∨ a2 = ""
    · rw [isAddressSpoofing, if_pos he]
      rcases he with he | he <;> simp [he]
    · push_neg at he
      rw [isAddressSpoofing, if_neg (by tauto)]
      rw [calculateAddressSimilarity]
      simp only [decide_eq_true_eq, he.1, he.2, ne_eq, not_false_eq_true,
        true_and]
      exact simRel_iff _ _
  · intro a1 a2 p c d h1 h2 hp hcd
    have hsim : calculateAddressSimilarity a1 a2 = mkRat 39 40 := by
      rw [calculateAddressSimilarity, h1, h2]
      rw [List.zip_append (by rfl), List.countP_append]
      rw [countP_zip_self]
      have hone : ([(c, d)].countP (fun pr => pr.1 == pr.2)) = 0 := by
        simp [List.countP_cons, hcd]
      simp [hone, hp]
    have h40 : mkRat 39 40 = (39 : ℚ) / 40 := by
      rw [Rat.mkRat_eq_div]
      norm_num
    rw [hsim, h40]
    norm_num
  · intro a1 a2 h
    rw [calculateAddressSimilarity]
    have hz : ((removeFirst0x (a1.data.map Char.toLower)).zip
        (removeFirst0x (a2.data.map Char.toLower))).countP
          (fun pr => pr.1 == pr.2) = 0 := by
      rw [List.countP_eq_zero]
      intro pr hpr
      simpa using h pr hpr
    rw [hz]
    simp [Rat.mkRat_eq_div]

/-- Witness for C6 on concrete addresses: 39 matching positions out of 40,
and zero matching positions. -/
theorem c6_witness :
    calculateAddressSimilarity
        "0xaaaaaaaaaaaaaaaaaaaaaaaaaaaaaaaaaaaaaaab"
        "0xaaaaaaaaaaaaaaaaaaaaaaaaaaaaaaaaaaaaaaac" = 39 / 40 ∧
    (7 : ℚ) / 10 < calculateAddressSimilarity
        "0xaaaaaaaaaaaaaaaaaaaaaaaaaaaaaaaaaaaaaaab"
        "0xaaaaaaaaaaaaaaaaaaaaaaaaaaaaaaaaaaaaaaac" ∧
    calculateAddressSimilarity "0x1111" "0x2222" = 0 := by
  have hb := c6_similarity_score.2.1
      "0xaaaaaaaaaaaaaaaaaaaaaaaaaaaaaaaaaaaaaaab"
      "0xaaaaaaaaaaaaaaaaaaaaaaaaaaaaaaaaaaaaaaac"
      (List.replicate 39 'a') 'b' 'c' (by decide) (by decide) (by decide)
      (by decide)
  have hc := c6_similarity_score.2.2 "0x1111" "0x2222" (by decide)
  exact ⟨hb.1, hb.2, hc⟩

/-- Membership in an accumulate-by-append fold. -/
theorem mem_foldl_app {α β : Type} (f : α → List β) (l : List α) :
    ∀ (init : List β) (x : β),
    (x ∈ l.foldl (fun acc e => acc ++ f e) init ↔ x ∈ init ∨ ∃ e ∈ l, x ∈ f e) := by
  induction l with
  | nil => simp
  | cons a as ih =>
      intro init x
      rw [List.foldl_cons, ih]
      simp [List.mem_append, or_assoc]

/-- `indexOf` stays within the list when the element occurs. -/
theorem idxOfA_lt_length (l : List String) (a : String) (h : a ∈ l) :
    idxOfA l a < l.length := by
  induction l with
  | nil => cases h
  | cons x xs ih =>
      rw [idxOfA]
      by_cases hx : x = a
      · simp [hx]
      · rcases List.mem_cons.mp h with h1 | h1
        · exact absurd h1.symm hx
        · simpa [hx] using ih h1

/-- Dropping up to the first occurrence puts that element at the head. -/
theorem drop_idxOfA_head (l : List String) (a : String) (h : a ∈ l) :
    (l.drop (idxOfA l a)).head? = some a := by
  induction l with
  | nil => cases h
  | cons x xs ih =>
      rw [idxOfA]
      by_cases hx : x = a
      · simp [hx]
      · rcases List.mem_cons.mp h with h1 | h1
        · exact absurd h1.symm hx
        · simpa [hx] using ih h1

/-- Structural invariants of every path the bounded DFS records: recorded at
a revisit, each is a genuine cycle (first element = last element, interior
duplicate-free) of at most `maxReentrancyDepth` edges. -/
theorem dfsPaths_spec (g : Graph) :
    ∀ (fuel : Nat) (node : String) (path : List String) (c : List String),
    path.Nodup → path.length + fuel ≤ maxReentrancyDepth + 1 →
    c ∈ dfsPaths g fuel node path →
    2 ≤ c.length ∧ c.length ≤ maxReentrancyDepth + 1 ∧
    c.head? = c.getLast? ∧ c.dropLast.Nodup := by
  intro fuel
  induction fuel with
  | zero => intro node path c _ _ hc; simp [dfsPaths] at hc
  | succ f ih =>
      intro node path c hnd hlen hc
      rw [dfsPaths] at hc
      by_cases hcy : path ≠ [] ∧ path.contains node = true
      · rw [if_pos hcy] at hc
        simp only [List.mem_singleton] at hc
        subst hc
        have hmem : node ∈ path := by simp_all
        have hidx := idxOfA_lt_length path node hmem
        have hhead := drop_idxOfA_head path node hmem
        obtain ⟨rest, hrest⟩ : ∃ rest, path.drop (idxOfA path node) = node :: rest := by
          cases hd : path.drop (idxOfA path node) with
          | nil => rw [hd] at hhead; simp at hhead
          | cons y ys =>
              rw [hd] at hhead
              simp at hhead
              exact ⟨ys, by rw [hhead]⟩
        have hdroplen : (path.drop (idxOfA path node)).length ≤ path.length :=
          by simp
        refine ⟨?_, ?_, ?_, ?_⟩
        · rw [hrest]
          simp
        · rw [List.length_append]
          have : path.length ≤ maxReentrancyDepth := by omega
          simp only [List.length_singleton]
          omega
        · rw [hrest, List.getLast?_concat]
          simp
        · rw [List.dropLast_concat]
          exact (List.drop_sublist _ _).nodup hnd
      · rw [if_neg hcy] at hc
        rw [mem_foldl_app] at hc
        rcases hc with hc | ⟨e, _, hc⟩
        · cases hc
        · refine ih e.eto (path ++ [node]) c ?_ ?_ hc
          · rcases Decidable.not_and_iff_or_not.mp hcy with h1 | h1
            · have hpe : path = [] := by simpa using h1
              subst hpe
              simp
            · have hnm : node ∉ path := by
                intro hmem
                exact h1 (by simpa using hmem)
              simp [List.nodup_append, hnm, hnd]
          · rw [List.length_append]
            simp only [List.length_singleton]
            omega

/-- **C5.** The path finder records a cycle exactly at a revisit of a node on
the current path: (i) at such a revisit the branch records precisely the
suffix of the path from that node's first occurrence with the repeat
appended; (ii) every recorded path is a cycle — head equals last, interior
nodes distinct — of at least one and at most `maxReentrancyDepth` (3) edges,
so no record comes from a branch deeper than the cap; (iii) conversely a
reachable revisit within the cap is recorded, e.g. every self-loop edge
yields its two-node cycle. -/
theorem c5_cycle_finder (g : Graph) :
    (∀ (fuel : Nat) (node : String) (path : List String),
      0 < fuel → path ≠ [] → path.contains node = true →
      dfsPaths g fuel node path = [path.drop (idxOfA path node) ++ [node]]) ∧
    (∀ c : List String, c ∈ findReentrancyPaths g →
      2 ≤ c.length ∧ c.length ≤ maxReentrancyDepth + 1 ∧
      c.head? = c.getLast? ∧ c.dropLast.Nodup) ∧
    (∀ (u : String) (es : List Edge) (e : Edge),
      gEdges g u = some es → e ∈ es → e.eto = u →
      [u, u] ∈ findReentrancyPaths g) := by
  refine ⟨?_, ?_, ?_⟩
  · intro fuel node path hf hne hcont
    cases fuel with
    | zero => cases hf
    | succ f =>
        rw [dfsPaths, if_pos ⟨hne, hcont⟩]
  · intro c h
    rw [findReentrancyPaths, mem_foldl_app] at h
    rcases h with h | ⟨node, _, h⟩
    · cases h
    · exact dfsPaths_spec g (maxReentrancyDepth + 1) node [] c (by simp) (by simp) h
  · intro u es e hes he heto
    have hu : u ∈ g.map Prod.fst := by
      unfold gEdges at hes
      cases hf : g.find? (fun p => p.1 == u) with
      | none => rw [hf] at hes; cases hes
      | some p =>
          have hp : p ∈ g := List.mem_of_find?_eq_some hf
          have hpu : p.1 = u := by simpa using List.find?_some hf
          exact hpu ▸ List.mem_map_of_mem Prod.fst hp
    rw [findReentrancyPaths, mem_foldl_app]
    refine Or.inr ⟨u, hu, ?_⟩
    rw [show maxReentrancyDepth + 1 = 3 + 1 from rfl, dfsPaths,
      if_neg (by simp)]
    rw [mem_foldl_app]
    refine Or.inr ⟨e, ?_, ?_⟩
    · rw [hes]
      simpa using he
    · rw [heto, show (3 : Nat) = 2 + 1 from rfl, dfsPaths,
        if_pos ⟨by simp, by simp⟩]
      simp [idxOfA]

/-- Witness for C5 on a concrete two-node cyclic graph. -/
theorem c5_witness :
    (["0xa", "0xb", "0xa"] : List String) ∈ findReentrancyPaths gC5 ∧
    (2 ≤ (["0xa", "0xb", "0xa"] : List String).length ∧
     (["0xa", "0xb", "0xa"] : List String).length ≤ maxReentrancyDepth + 1 ∧
     (["0xa", "0xb", "0xa"] : List String).head? =
       (["0xa", "0xb", "0xa"] : List String).getLast? ∧
     (["0xa", "0xb", "0xa"] : List String).dropLast.Nodup) :=
  ⟨by decide, (c5_cycle_finder gC5).2.1 ["0xa", "0xb", "0xa"] (by decide)⟩

/-- The call graph built over the three-call reentrancy scenario: forward
edges for each call plus the reverse (callback) edge for the positive-value
call B to A. -/
theorem c4_buildgraph (A B v : String) (k : Int)
    (hA : A ≠ "") (hB : B ≠ "") (hAB : A ≠ B) (hvne : v ≠ "")
    (hv : bnFrom v = Except.ok k) (hk : 0 < k) :
    buildCallGraph
      [CallT.mk A B none none none none [],
       CallT.mk B A none none (some v) none [],
       CallT.mk A B none none none none []] =
    Except.ok
      [(A, [⟨B, 0, "0"⟩, ⟨B, 2, "0"⟩, ⟨B, 1, v⟩]),
       (B, [⟨A, 1, v⟩])] := by
  have hBA : B ≠ A := Ne.symm hAB
  have hbeq1 : (A == B) = false := beq_eq_false_iff_ne.mpr hAB
  have hbeq2 : (B == A) = false := beq_eq_false_iff_ne.mpr hBA
  simp [buildCallGraph, List.enum, List.enumFrom, alPush, alEnsure,
    CallT.fromAddr, CallT.toAddr, CallT.input, CallT.value, valuePositiveM,
    jsOr0, hvne, hv, hk, hA, hB, hAB, hBA, hbeq1, hbeq2, optHas,
    Bind.bind, Except.bind, pure, Except.pure, List.foldlM, List.find?]

/-- The cycles the bounded DFS finds on that graph. -/
theorem c4_paths (A B v : String) (hAB : A ≠ B) :
    findReentrancyPaths
      [(A, [⟨B, 0, "0"⟩, ⟨B, 2, "0"⟩, ⟨B, 1, v⟩]),
       (B, [⟨A, 1, v⟩])] =
    [[A, B, A], [A, B, A], [A, B, A], [B, A, B], [B, A, B], [B, A, B]] := by
  have hBA : B ≠ A := Ne.symm hAB
  have hbeq1 : (A == B) = false := beq_eq_false_iff_ne.mpr hAB
  have hbeq2 : (B == A) = false := beq_eq_false_iff_ne.mpr hBA
  simp [findReentrancyPaths, dfsPaths, gEdges, idxOfA, hAB, hBA, hbeq1,
    hbeq2, List.find?, List.contains, List.elem, maxReentrancyDepth]

/-- The auxiliary pattern evidence computed in that scenario. -/
theorem c4_patterns (A B v : String) (k : Int)
    (hAB : A ≠ B) (hvne : v ≠ "")
    (hv : bnFrom v = Except.ok k) (hk : 0 < k) :
    analyzeReentrancyPatterns
      [CallT.mk A B none none none none [],
       CallT.mk B A none none (some v) none [],
       CallT.mk A B none none none none []]
      [[A, B, A], [A, B, A], [A, B, A], [B, A, B], [B, A, B], [B, A, B]] =
    Except.ok
      [{ pattern := "nested_value_transfers", severity := "medium",
         description := "Multiple value transfers detected in nested calls" }] := by
  have hBA : B ≠ A := Ne.symm hAB
  have hbeq1 : (A == B) = false := beq_eq_false_iff_ne.mpr hAB
  have hbeq2 : (B == A) = false := beq_eq_false_iff_ne.mpr hBA
  simp [analyzeReentrancyPatterns, anyM, jsFilterM, valuePositiveM,
    CallT.fromAddr, CallT.toAddr, CallT.input, CallT.value, optHas,
    hvne, hv, hk, hbeq1, hbeq2, List.find?, List.foldlM,
    Bind.bind, Except.bind, pure, Except.pure, List.filter]

/-- **C4.** For every transaction the override rejects (which also rules out
the fixture tags) whose top-level calls are A to B, then B to A carrying a
positive parseable value, then A to B again, the reentrancy evaluator fires
and its details list at least one cycle containing both A and B. -/
theorem c4_reentrancy_cycle (t : TransactionT) (A B v : String) (k : Int)
    (hA : A ≠ "") (hB : B ≠ "") (hAB : A ≠ B)
    (hv : bnFrom v = Except.ok k) (hk : 0 < k)
    (hcalls : t.trace.calls = some
      [CallT.mk A B none none none none [],
       CallT.mk B A none none (some v) none [],
       CallT.mk A B none none none none []])
    (hlegit : isLegitimateOperation t t.additionalData = Except.ok false) :
    ∃ r, detectReentrancy t = Except.ok r ∧ r.detected = true ∧
      ∃ ps, alGet r.details "reentrancyPaths" = some (pathsToJ ps) ∧
        ∃ p ∈ ps, A ∈ p ∧ B ∈ p := by
  have hvne : v ≠ "" := by
    intro h
    rw [h] at hv
    simp [bnFrom] at hv
  obtain ⟨hfp, hlg⟩ := legit_false_tags t hlegit
  unfold detectReentrancy
  rw [hlegit]
  simp only [Bind.bind, Except.bind, Bool.false_eq_true, if_false]
  rw [if_neg (by simp [hfp, hlg])]
  rw [hcalls]
  simp only []
  rw [c4_buildgraph A B v k hA hB hAB hvne hv hk]
  simp only [Except.bind]
  rw [c4_paths A B v hAB]
  simp only []
  rw [c4_patterns A B v k hAB hvne hv hk]
  simp only [Except.bind, pure, Except.pure]
  refine ⟨_, rfl, rfl, ?_⟩
  refine ⟨[[A, B, A], [A, B, A], [A, B, A], [B, A, B], [B, A, B], [B, A, B]],
    by simp [alGet, List.find?], ?_⟩
  exact ⟨[A, B, A], by simp, by simp, by simp⟩

/-- Witness for C4 on concrete addresses and value. -/
theorem c4_witness :
    ∃ r, detectReentrancy txC4w = Except.ok r ∧ r.detected = true ∧
      ∃ ps, alGet r.details "reentrancyPaths" = some (pathsToJ ps) ∧
        ∃ p ∈ ps, "0xaaa1" ∈ p ∧ "0xbbb2" ∈ p :=
  c4_reentrancy_cycle txC4w "0xaaa1" "0xbbb2" "5" 5 (by decide) (by decide)
    (by decide) (by rfl) (by decide) rfl (by rfl)
